import Mathlib

/-!
# Verification of the chatbook backend core

Shallow embedding of `src/backend/main.py` and `src/backend/models.py`:
the SQLAlchemy data model (`User`, `Message`), the in-memory
`ConnectionManager` (a Python dict from username to websocket), the
`/ws/chat/{username}` per-session loop, token issuance and rotation, the
`/messages` history query and the `/register` endpoint.

Modelling conventions:
- Python dicts are association lists with unique keys; `d[k] = v`,
  `d.pop(k, None)` and `d.get(k)` are `dictSet`, `dictPop`, `dictGet`.
- A websocket is identified by a numeric handle; the network layer is a
  table from handle to a socket record carrying a `broken` flag (a send
  on a broken socket raises) and an inbox of delivered JSON frames.
- Server time is an explicit `Nat` parameter (`datetime.utcnow()`).
- JWTs are a signed payload (claims `sub`, `exp`, `type`) or an
  unparseable blob; `jwt.decode` checks the key and expiry.
- A Python function with no `return` statement returns `None`; where the
  return value matters it is modelled by `PyVal`.
- Database commits may fail; the outcome of `db.commit()` is an explicit
  boolean input to the loop-body model (`persistOk`), a failed commit
  persisting nothing.
-/

/-- `models.User`: identity, unique username, bcrypt password hash. -/
structure User where
  id : Nat
  username : String
  password_hash : String
deriving DecidableEq

/-- `models.Message`: persisted chat message row. -/
structure Message where
  id : Nat
  sender_id : Nat
  receiver_id : Nat
  content : String
  status : String
  timestamp : Nat
deriving DecidableEq

/-- The relational store: users and messages tables plus id sequences. -/
structure DB where
  users : List User
  messages : List Message
  nextUserId : Nat
  nextMsgId : Nat
deriving DecidableEq

/-- `get_user_by_username`: `db.query(User).filter(User.username == username).first()`. -/
def get_user_by_username (db : DB) (username : String) : Option User :=
  db.users.find? (fun u => u.username == username)

/-- Python dict read `m.get(k)`. -/
def dictGet (m : List (String × Nat)) (k : String) : Option Nat :=
  (m.find? (fun p => p.fst == k)).map Prod.snd

/-- Python dict write `m[k] = v`: replaces the entry for `k` if present,
else appends a new one (dict keys are unique). -/
def dictSet (m : List (String × Nat)) (k : String) (v : Nat) : List (String × Nat) :=
  if m.any (fun p => p.fst == k) then
    m.map (fun p => if p.fst == k then (k, v) else p)
  else m ++ [(k, v)]

/-- Python dict removal `m.pop(k, None)`. -/
def dictPop (m : List (String × Nat)) (k : String) : List (String × Nat) :=
  m.filter (fun p => p.fst != k)

/-- An outbound websocket JSON frame: either `{"error": ...}`, the
recipient-facing envelope `{"from", "content", "status", "timestamp", "id"}`
or the sender-facing confirmation `{"to", ...}`. -/
inductive Envelope
  | err (detail : String)
  | fromMsg (fromUser content status : String) (timestamp id : Nat)
  | toMsg (toUser content status : String) (timestamp id : Nat)
deriving DecidableEq

/-- Network-layer view of one websocket: whether `send_json` raises, and
the frames already delivered to the peer. -/
structure Sock where
  broken : Bool
  inbox : List Envelope
deriving DecidableEq

/-- Whole-server state: `manager.active_connections`, the socket table
and the database. -/
structure SrvState where
  conns : List (String × Nat)
  socks : List (Nat × Sock)
  db : DB
deriving DecidableEq

/-- `ws.send_json(e)`: `none` when the call raises (unknown or broken
socket), otherwise the socket table with `e` appended to the inbox. -/
def sockSend (socks : List (Nat × Sock)) (wsid : Nat) (e : Envelope) :
    Option (List (Nat × Sock)) :=
  match socks.find? (fun p => p.fst == wsid) with
  | Option.none => Option.none
  | some pr =>
    if pr.snd.broken then Option.none
    else some (socks.map (fun p =>
      if p.fst == wsid then (p.fst, { p.snd with inbox := p.snd.inbox ++ [e] }) else p))

/-- `ConnectionManager.connect`: accept the socket and install
`active_connections[username] = websocket`, replacing any prior entry. -/
def cmConnect (st : SrvState) (username : String) (wsid : Nat) : SrvState :=
  { st with conns := dictSet st.conns username wsid }

/-- `ConnectionManager.disconnect`: `active_connections.pop(username, None)`.
Takes only the identity: it removes whatever entry is current. -/
def cmDisconnect (st : SrvState) (username : String) : SrvState :=
  { st with conns := dictPop st.conns username }

/-- Return value of a Python function where it matters: `None` or a bool. -/
inductive PyVal
  | none
  | bool (b : Bool)
deriving DecidableEq

/-- `ConnectionManager.send_personal_message`: look the username up in
`active_connections`; if present try `ws.send_json(message)`, catching and
logging any exception. The function body has no `return`, so it returns
`None` on every path. -/
def send_personal_message (st : SrvState) (message : Envelope) (username : String) :
    PyVal × SrvState :=
  match dictGet st.conns username with
  | Option.none => (PyVal.none, st)
  | some wsid =>
    match sockSend st.socks wsid message with
    | Option.none => (PyVal.none, st)
    | some socks2 => (PyVal.none, { st with socks := socks2 })

/-- The empty server state (process start: no connections, empty tables). -/
def st0 : SrvState :=
  { conns := [], socks := [], db := { users := [], messages := [], nextUserId := 1, nextMsgId := 1 } }

/-- One inbound frame as parsed by `websocket.receive_json()`: the handler
reads `data.get("to")` and `data.get("content")`, either of which may be
absent. -/
structure Frame where
  to_user : Option String
  content : Option String
deriving DecidableEq

/-- Python truthiness test `not x` for an optional string: true when the
key is absent (`None`) or the string is empty. -/
def falsy (o : Option String) : Bool := o.getD "" == ""

/-- Result of one iteration of the `chat_websocket` receive loop:
either `continue` back to `Receiving` with the new state, or an unhandled
exception escaping the handler (the framework then tears the connection
down; only `WebSocketDisconnect` would run `manager.disconnect`, and it is
raised by `receive_json`, not by the body modelled here). -/
inductive LoopOutcome
  | continues (st : SrvState)
  | fatal (st : SrvState)
deriving DecidableEq

/-- State carried by either outcome. -/
def LoopOutcome.state : LoopOutcome → SrvState
  | .continues st => st
  | .fatal st => st

/-- Whether the session loop goes on (session still open and receiving). -/
def LoopOutcome.isContinues : LoopOutcome → Bool
  | .continues _ => true
  | .fatal _ => false

/-- Body of the `while True` loop of `chat_websocket` for one received
frame, lines 190-230 of `main.py`. `username` is the path parameter,
`wsid` the handler's own socket, `persistOk` the outcome of `db.commit()`
(a failed commit raises and persists nothing), `now` the server clock
used for the message timestamp. -/
def processFrame (st : SrvState) (username : String) (wsid : Nat) (frame : Frame)
    (persistOk : Bool) (now : Nat) : LoopOutcome :=
  if falsy frame.to_user || falsy frame.content then
    match sockSend st.socks wsid (Envelope.err "Invalid message format.") with
    | Option.none => LoopOutcome.fatal st
    | some socks2 => LoopOutcome.continues { st with socks := socks2 }
  else
    let to_user := frame.to_user.getD ""
    let content := frame.content.getD ""
    match get_user_by_username st.db username, get_user_by_username st.db to_user with
    | some sender, some receiver =>
      if persistOk then
        let msg : Message :=
          { id := st.db.nextMsgId, sender_id := sender.id, receiver_id := receiver.id
          , content := content, status := "sent", timestamp := now }
        let st2 : SrvState :=
          { st with db := { st.db with
                            messages := st.db.messages ++ [msg],
                            nextMsgId := st.db.nextMsgId + 1 } }
        let st3 := (send_personal_message st2
          (Envelope.fromMsg username content "sent" now msg.id) to_user).snd
        match sockSend st3.socks wsid (Envelope.toMsg to_user content "sent" now msg.id) with
        | Option.none => LoopOutcome.continues st3
        | some socks4 => LoopOutcome.continues { st3 with socks := socks4 }
      else
        LoopOutcome.fatal st
    | _, _ =>
      match sockSend st.socks wsid (Envelope.err "User not found.") with
      | Option.none => LoopOutcome.fatal st
      | some socks2 => LoopOutcome.continues { st with socks := socks2 }

/-- `SECRET_KEY` (default of the env lookup). -/
def SECRET_KEY : String := "supersecretkey"

/-- `ACCESS_TOKEN_EXPIRE_MINUTES` in seconds. -/
def accessExpireSeconds : Nat := 30 * 60

/-- `REFRESH_TOKEN_EXPIRE_DAYS` in seconds. -/
def refreshExpireSeconds : Nat := 7 * 86400

/-- JWT claims used by the backend: `sub`, `exp` and the optional claim
named "type" (field `typ` here) added by `create_refresh_token`. -/
structure TokenPayload where
  sub : Option String
  exp : Nat
  typ : Option String
deriving DecidableEq

/-- A bearer token: a JWT signed with `key`, or an unparseable blob. -/
inductive Token
  | jwt (payload : TokenPayload) (key : String)
  | malformed (raw : String)
deriving DecidableEq

/-- `jose.jwt.decode(token, key, algorithms=[ALGORITHM])`: raises
`JWTError` (here `Except.error`) on a malformed token, a bad signature or
a passed expiry. -/
def jwtDecode (t : Token) (key : String) (now : Nat) : Except Unit TokenPayload :=
  match t with
  | .malformed _ => .error ()
  | .jwt p k =>
    if k = key then (if now < p.exp then .ok p else .error ()) else .error ()

/-- `create_access_token(data={"sub": sub})` with the default expiry:
payload carries `sub` and `exp`, and no `type` marker. -/
def create_access_token (sub : Option String) (now : Nat) : Token :=
  .jwt { sub := sub, exp := now + accessExpireSeconds, typ := Option.none } SECRET_KEY

/-- `create_refresh_token(data={"sub": sub})`: payload carries `sub`,
`exp` and `type = "refresh"`. -/
def create_refresh_token (sub : Option String) (now : Nat) : Token :=
  .jwt { sub := sub, exp := now + refreshExpireSeconds, typ := some "refresh" } SECRET_KEY

/-- An `HTTPException(status_code, detail)`. -/
structure HttpError where
  status : Nat
  detail : String
deriving DecidableEq

/-- Whether an endpoint result is a 401 response. -/
def is401 {α : Type} : Except HttpError α → Bool
  | .error e => e.status == 401
  | .ok _ => false

/-- The `/refresh-token` endpoint: decode the refresh token (`JWTError`
maps to 401), require `type == "refresh"` and a `sub` claim, require the
user to exist, then issue a fresh pair bound to `user.username`. -/
def refresh_token (db : DB) (tok : Token) (now : Nat) :
    Except HttpError (Token × Token × String) :=
  match jwtDecode tok SECRET_KEY now with
  | .error _ => .error { status := 401, detail := "Invalid refresh token" }
  | .ok payload =>
    if payload.typ ≠ some "refresh" then
      .error { status := 401, detail := "Invalid refresh token type" }
    else
      match payload.sub with
      | Option.none => .error { status := 401, detail := "Invalid refresh token" }
      | some username =>
        match get_user_by_username db username with
        | Option.none => .error { status := 401, detail := "User not found" }
        | some user =>
          .ok (create_access_token (some user.username) now,
               create_refresh_token (some user.username) now, "bearer")

/-- `pwd_context.hash`: bcrypt abstracted as a tagged injection (its
output never collides with a stored plain username and is deterministic
only inside one model run; no claim depends on its value). -/
def get_password_hash (password : String) : String := "$2b$12$" ++ password

/-- The `/register` endpoint: 400 when the username already exists (the
store is returned unchanged), else insert the new user row and commit. -/
def registerEndpoint (db : DB) (username password : String) :
    DB × Except HttpError String :=
  match get_user_by_username db username with
  | some _ => (db, .error { status := 400, detail := "Username already registered" })
  | Option.none =>
    let u : User :=
      { id := db.nextUserId, username := username
      , password_hash := get_password_hash password }
    ({ db with users := db.users ++ [u], nextUserId := db.nextUserId + 1 },
     .ok "User registered successfully")

/-- Rendered row of the `/messages` response: `from`/`to` are rebuilt
from the query parameters by comparing `sender_id` with `user1`'s id. -/
structure MsgOut where
  id : Nat
  fromUser : String
  toUser : String
  content : String
  status : String
  timestamp : Nat
deriving DecidableEq

/-- Comparison used for `order_by(Message.timestamp.asc())`. -/
def tsLe (m1 m2 : Message) : Prop := m1.timestamp ≤ m2.timestamp

instance : DecidableRel tsLe := fun m1 m2 =>
  inferInstanceAs (Decidable (m1.timestamp ≤ m2.timestamp))

instance : IsTotal Message tsLe := ⟨fun a b => Nat.le_total a.timestamp b.timestamp⟩

instance : IsTrans Message tsLe := ⟨fun _ _ _ h1 h2 => Nat.le_trans h1 h2⟩

/-- Predicate of the `/messages` filter: the (sender, receiver) id pair
matches (u1, u2) in either direction. -/
def msgBetween (u1 u2 : User) (m : Message) : Bool :=
  (m.sender_id == u1.id && m.receiver_id == u2.id) ||
  (m.sender_id == u2.id && m.receiver_id == u1.id)

/-- Row rendering of the `/messages` response. -/
def renderMsg (u1 : User) (user1 user2 : String) (m : Message) : MsgOut :=
  { id := m.id
  , fromUser := if m.sender_id == u1.id then user1 else user2
  , toUser := if m.sender_id == u1.id then user2 else user1
  , content := m.content, status := m.status, timestamp := m.timestamp }

/-- The `/messages` endpoint (`get_messages`): resolve both usernames
(empty list if either is unknown), filter messages exchanged between the
two in either direction, order by ascending timestamp, render. -/
def get_messages (db : DB) (user1 user2 : String) : List MsgOut :=
  match get_user_by_username db user1, get_user_by_username db user2 with
  | some u1, some u2 =>
    ((db.messages.filter (msgBetween u1 u2)).insertionSort tsLe).map
      (renderMsg u1 user1 user2)
  | _, _ => []

/-! ## Concrete fixtures used by witnesses and counterexamples -/

/-- Stored user row for "alice". -/
def uA : User := { id := 1, username := "alice", password_hash := "ha" }

/-- Stored user row for "bob". -/
def uB : User := { id := 2, username := "bob", password_hash := "hb" }

/-- A store with users alice and bob and no messages. -/
def dbT : DB := { users := [uA, uB], messages := [], nextUserId := 3, nextMsgId := 1 }

/-- Server state: alice on socket 1 and bob on socket 2, both healthy. -/
def stT : SrvState :=
  { conns := [("alice", 1), ("bob", 2)]
  , socks := [(1, { broken := false, inbox := [] }), (2, { broken := false, inbox := [] })]
  , db := dbT }

/-- Server state before alice connects: only bob is registered. -/
def stPre : SrvState :=
  { conns := [("bob", 2)]
  , socks := [(1, { broken := false, inbox := [] }), (2, { broken := false, inbox := [] })]
  , db := dbT }

/-- A store with three messages: alice to bob at time 7, bob to alice at
time 3, and alice to herself at time 1. -/
def dbM : DB :=
  { users := [uA, uB]
  , messages :=
      [ { id := 1, sender_id := 1, receiver_id := 2, content := "m1", status := "sent", timestamp := 7 }
      , { id := 2, sender_id := 2, receiver_id := 1, content := "m2", status := "sent", timestamp := 3 }
      , { id := 3, sender_id := 1, receiver_id := 1, content := "self", status := "sent", timestamp := 1 } ]
  , nextUserId := 3
  , nextMsgId := 4 }

/-! ## Claims -/

/-- C1: the claim says that after `register(X, s1)` then `register(X, s2)`,
`lookup(X)` returns `s2`, and that a `deregister(X)` made on behalf of the
superseded session `s1` does not remove the newer mapping. The first half
holds, but `ConnectionManager.disconnect` takes only the username and pops
the entry unconditionally, so the stale session's disconnect evicts the
newer session: afterwards `lookup(X)` returns absent, not `s2`. This
theorem evaluates the code at that failing input. -/
theorem c1_stale_disconnect_evicts_newer_session :
    dictGet (cmConnect (cmConnect st0 "x" 1) "x" 2).conns "x" = some 2 ∧
    dictGet (cmDisconnect (cmConnect (cmConnect st0 "x" 1) "x" 2) "x").conns "x" =
      Option.none :=
  ⟨rfl, rfl⟩

/-- C2: the claim says opening a duplex session and having frames routed
requires passing token validation. The `chat_websocket` endpoint takes
only the username path parameter and performs no token check (the declared
`oauth2_scheme` is never applied): starting from a state in which no token
exists, the connection is accepted and registered, and a frame is routed
and persisted. This theorem evaluates the code at that failing input. -/
theorem c2_websocket_accepts_without_token :
    dictGet (cmConnect stPre "alice" 1).conns "alice" = some 1 ∧
    (processFrame (cmConnect stPre "alice" 1) "alice" 1
      { to_user := some "bob", content := some "hi" } true 5).isContinues = true ∧
    (processFrame (cmConnect stPre "alice" 1) "alice" 1
      { to_user := some "bob", content := some "hi" } true 5).state.db.messages =
      [{ id := 1, sender_id := 1, receiver_id := 2, content := "hi", status := "sent",
         timestamp := 5 }] :=
  ⟨rfl, rfl, rfl⟩

/-- C3: the claim says a persistence failure terminates the session's loop,
tears the connection down, and the session task deregisters its identity.
The loop does terminate with nothing persisted (the unhandled exception
tears the connection down), but `manager.disconnect` is called only in the
`WebSocketDisconnect` handler, so after a failed `db.commit()` the identity
is still registered. This theorem evaluates the code at that failing
input: the outcome is fatal with the state unchanged, no message is
persisted, and "alice" is still mapped to socket 1. -/
theorem c3_persist_failure_leaves_identity_registered :
    processFrame stT "alice" 1 { to_user := some "bob", content := some "hi" } false 5 =
      LoopOutcome.fatal stT ∧
    dictGet (processFrame stT "alice" 1 { to_user := some "bob", content := some "hi" }
      false 5).state.conns "alice" = some 1 ∧
    (processFrame stT "alice" 1 { to_user := some "bob", content := some "hi" }
      false 5).state.db.messages = [] :=
  ⟨rfl, rfl, rfl⟩

/-- C4 counterexample: the claim says `send(identity, payload)` returns the
boolean false when the identity has no registered session. The Python
function `send_personal_message` has no return statement, so with "bob"
unregistered it returns `None`, not the boolean false. -/
theorem c4_counterexample_send_returns_none :
    (send_personal_message st0 (Envelope.fromMsg "alice" "hi" "sent" 0 1) "bob").fst ≠
      PyVal.bool false := by
  decide

/-- C4 (amended): `send_personal_message` always returns `None` (never a
delivered boolean); on every path — identity absent, push failed (the
exception is caught and logged), or push delivered — it raises nothing,
persists nothing (the database is unchanged) and does not deregister the
identity (the connection map is unchanged). -/
theorem c4_send_returns_none_no_persist_no_deregister
    (st : SrvState) (message : Envelope) (username : String) :
    (send_personal_message st message username).fst = PyVal.none ∧
    (send_personal_message st message username).snd.db = st.db ∧
    (send_personal_message st message username).snd.conns = st.conns := by
  unfold send_personal_message
  rcases hd : dictGet st.conns username with _ | wsid
  · exact ⟨rfl, rfl, rfl⟩
  · rcases hs : sockSend st.socks wsid message with _ | socks2 <;> simp [hs]

/-- C5: for every inbound frame whose `to` or `content` field is missing
or empty, the handler responds to the sender with the validation error
`{"error": "Invalid message format."}` and continues the loop: no message
is persisted, the registry is untouched and the session remains open in
the receiving state. (The error reply on the sender's own socket must
itself succeed, as provided by `hsend`.) -/
theorem c5_malformed_frame_validation_error (st : SrvState) (username : String)
    (wsid : Nat) (frame : Frame) (persistOk : Bool) (now : Nat)
    (socks2 : List (Nat × Sock))
    (hmal : falsy frame.to_user = true ∨ falsy frame.content = true)
    (hsend : sockSend st.socks wsid (Envelope.err "Invalid message format.") = some socks2) :
    processFrame st username wsid frame persistOk now =
      LoopOutcome.continues { st with socks := socks2 } ∧
    ({ st with socks := socks2 } : SrvState).db.messages = st.db.messages ∧
    ({ st with socks := socks2 } : SrvState).conns = st.conns := by
  have hcond : (falsy frame.to_user || falsy frame.content) = true := by
    rcases hmal with h | h <;> simp [h]
  refine ⟨?_, rfl, rfl⟩
  simp [processFrame, hcond, hsend]

/-- C5 witness: the spec's own example frame `{"to": "", "content": "hi"}`
sent by alice in state `stT` yields the validation error on alice's socket
and leaves everything else unchanged. -/
theorem c5_witness :
    processFrame stT "alice" 1 { to_user := some "", content := some "hi" } true 5 =
      LoopOutcome.continues
        { stT with socks :=
            [ (1, { broken := false, inbox := [Envelope.err "Invalid message format."] })
            , (2, { broken := false, inbox := [] }) ] } ∧
    ({ stT with socks :=
            [ (1, { broken := false, inbox := [Envelope.err "Invalid message format."] })
            , (2, { broken := false, inbox := [] }) ] } : SrvState).db.messages =
      stT.db.messages ∧
    ({ stT with socks :=
            [ (1, { broken := false, inbox := [Envelope.err "Invalid message format."] })
            , (2, { broken := false, inbox := [] }) ] } : SrvState).conns = stT.conns :=
  c5_malformed_frame_validation_error stT "alice" 1
    { to_user := some "", content := some "hi" } true 5 _ (Or.inl rfl) rfl

/-- C6: for every well-formed frame whose recipient or whose sender
identity does not resolve in the user table, the handler responds to the
sender with `{"error": "User not found."}` and continues the loop: no
message is persisted, the registry and the store are unchanged and the
session remains open. -/
theorem c6_unknown_user_not_found_error (st : SrvState) (username : String)
    (wsid : Nat) (frame : Frame) (persistOk : Bool) (now : Nat)
    (socks2 : List (Nat × Sock))
    (hto : falsy frame.to_user = false) (hc : falsy frame.content = false)
    (hmiss : get_user_by_username st.db username = Option.none ∨
             get_user_by_username st.db (frame.to_user.getD "") = Option.none)
    (hsend : sockSend st.socks wsid (Envelope.err "User not found.") = some socks2) :
    processFrame st username wsid frame persistOk now =
      LoopOutcome.continues { st with socks := socks2 } ∧
    ({ st with socks := socks2 } : SrvState).db = st.db ∧
    ({ st with socks := socks2 } : SrvState).conns = st.conns := by
  refine ⟨?_, rfl, rfl⟩
  rcases hmiss with h | h
  · rcases h2 : get_user_by_username st.db (frame.to_user.getD "") with _ | u <;>
      simp [processFrame, hto, hc, h, h2, hsend]
  · rcases h2 : get_user_by_username st.db username with _ | u <;>
      simp [processFrame, hto, hc, h, h2, hsend]

/-- C6 witness: alice sends to the unknown identity "carol" in state
`stT`; the handler replies with the user-not-found error on alice's socket
and the state is otherwise unchanged. -/
theorem c6_witness :
    processFrame stT "alice" 1 { to_user := some "carol", content := some "hi" } true 5 =
      LoopOutcome.continues
        { stT with socks :=
            [ (1, { broken := false, inbox := [Envelope.err "User not found."] })
            , (2, { broken := false, inbox := [] }) ] } ∧
    ({ stT with socks :=
            [ (1, { broken := false, inbox := [Envelope.err "User not found."] })
            , (2, { broken := false, inbox := [] }) ] } : SrvState).db = stT.db ∧
    ({ stT with socks :=
            [ (1, { broken := false, inbox := [Envelope.err "User not found."] })
            , (2, { broken := false, inbox := [] }) ] } : SrvState).conns = stT.conns :=
  c6_unknown_user_not_found_error stT "alice" 1
    { to_user := some "carol", content := some "hi" } true 5 _ rfl rfl (Or.inr rfl) rfl

/-- C7: when both identities resolve, `get_messages` returns exactly the
messages whose (sender, receiver) id pair is (A, B) or (B, A) — the result
is a permutation of the filtered store, rendered — and the result is
ordered by ascending timestamp. -/
theorem c7_history_both_directions_sorted (db : DB) (A B : String) (u1 u2 : User)
    (h1 : get_user_by_username db A = some u1)
    (h2 : get_user_by_username db B = some u2) :
    (get_messages db A B).Perm
      ((db.messages.filter (msgBetween u1 u2)).map (renderMsg u1 A B)) ∧
    List.Sorted (fun x y : MsgOut => x.timestamp ≤ y.timestamp) (get_messages db A B) := by
  have hg : get_messages db A B =
      ((db.messages.filter (msgBetween u1 u2)).insertionSort tsLe).map
        (renderMsg u1 A B) := by
    simp [get_messages, h1, h2]
  rw [hg]
  constructor
  · exact (List.perm_insertionSort tsLe _).map _
  · rw [List.Sorted, List.pairwise_map]
    exact (List.sorted_insertionSort tsLe _).imp (fun h => h)

/-- C7 witness: on the concrete store `dbM`, the alice/bob history is a
permutation of the two cross messages (the self-message is excluded) and
is sorted by timestamp. -/
theorem c7_witness :
    (get_messages dbM "alice" "bob").Perm
      ((dbM.messages.filter (msgBetween uA uB)).map (renderMsg uA "alice" "bob")) ∧
    List.Sorted (fun x y : MsgOut => x.timestamp ≤ y.timestamp)
      (get_messages dbM "alice" "bob") :=
  c7_history_both_directions_sorted dbM "alice" "bob" uA uB rfl rfl

/-- C8: when either identity of a history query is unknown, the endpoint
returns the empty list (its only non-raising branch for that case) rather
than an error. -/
theorem c8_unknown_identity_empty_history (db : DB) (A B : String)
    (h : get_user_by_username db A = Option.none ∨
         get_user_by_username db B = Option.none) :
    get_messages db A B = [] := by
  rcases h with h | h
  · rcases h2 : get_user_by_username db B with _ | u <;> simp [get_messages, h, h2]
  · rcases h2 : get_user_by_username db A with _ | u <;> simp [get_messages, h, h2]

/-- C8 witness: querying history between the unknown "carol" and "bob" on
the concrete store `dbM` yields the empty list. -/
theorem c8_witness : get_messages dbM "carol" "bob" = [] :=
  c8_unknown_identity_empty_history dbM "carol" "bob" (Or.inl rfl)

/-- C9: token rotation 401s for every token whose `type` marker is missing
or invalid — first conjunct: every access token (which carries no marker)
is rejected, expired or not; second conjunct: any token that decodes but
whose marker is not "refresh" is rejected — and, third conjunct, for a
valid (unexpired) refresh token issued for an identity X present in the
store, rotation succeeds and both returned tokens carry identity X and
validate at the rotation time. -/
theorem c9_refresh_rotation :
    (∀ (db : DB) (sub : Option String) (now now2 : Nat),
      is401 (refresh_token db (create_access_token sub now) now2) = true) ∧
    (∀ (db : DB) (t : Token) (now : Nat) (p : TokenPayload),
      jwtDecode t SECRET_KEY now = .ok p → p.typ ≠ some "refresh" →
      is401 (refresh_token db t now) = true) ∧
    (∀ (db : DB) (X : String) (u : User) (now now2 : Nat),
      get_user_by_username db X = some u →
      now2 < now + refreshExpireSeconds →
      refresh_token db (create_refresh_token (some X) now) now2 =
        .ok (create_access_token (some X) now2,
             create_refresh_token (some X) now2, "bearer") ∧
      (∃ pa, jwtDecode (create_access_token (some X) now2) SECRET_KEY now2 = .ok pa ∧
        pa.sub = some X) ∧
      (∃ pr, jwtDecode (create_refresh_token (some X) now2) SECRET_KEY now2 = .ok pr ∧
        pr.sub = some X ∧ pr.typ = some "refresh")) := by
  refine ⟨?_, ?_, ?_⟩
  · intro db sub now now2
    by_cases h : now2 < now + accessExpireSeconds <;>
      simp [refresh_token, jwtDecode, create_access_token, is401, h]
  · intro db t now p hdec htyp
    simp [refresh_token, hdec, htyp, is401]
  · intro db X u now now2 hu hlt
    have hux : u.username = X := by
      unfold get_user_by_username at hu
      have hb := List.find?_some hu
      exact eq_of_beq hb
    have hdec : jwtDecode (create_refresh_token (some X) now) SECRET_KEY now2 =
        .ok { sub := some X, exp := now + refreshExpireSeconds, typ := some "refresh" } := by
      simp [jwtDecode, create_refresh_token, hlt]
    have ha : now2 < now2 + accessExpireSeconds := by unfold accessExpireSeconds; omega
    have hr : now2 < now2 + refreshExpireSeconds := by unfold refreshExpireSeconds; omega
    refine ⟨?_, ?_, ?_⟩
    · simp [refresh_token, hdec, hu, hux]
    · exact ⟨{ sub := some X, exp := now2 + accessExpireSeconds, typ := Option.none },
        by simp [jwtDecode, create_access_token, ha], rfl⟩
    · exact ⟨{ sub := some X, exp := now2 + refreshExpireSeconds, typ := some "refresh" },
        by simp [jwtDecode, create_refresh_token, hr], rfl, rfl⟩

/-- C9 witness: on the concrete store `dbT`, rotating an access token for
alice 401s; rotating a decodable token with no `type` marker 401s; and
rotating a fresh refresh token for alice at time 10 succeeds with both new
tokens bound to alice. -/
theorem c9_witness :
    is401 (refresh_token dbT (create_access_token (some "alice") 0) 10) = true ∧
    is401 (refresh_token dbT
      (Token.jwt { sub := some "alice", exp := 100, typ := Option.none } SECRET_KEY) 10) =
      true ∧
    (refresh_token dbT (create_refresh_token (some "alice") 0) 10 =
        .ok (create_access_token (some "alice") 10,
             create_refresh_token (some "alice") 10, "bearer") ∧
      (∃ pa, jwtDecode (create_access_token (some "alice") 10) SECRET_KEY 10 = .ok pa ∧
        pa.sub = some "alice") ∧
      (∃ pr, jwtDecode (create_refresh_token (some "alice") 10) SECRET_KEY 10 = .ok pr ∧
        pr.sub = some "alice" ∧ pr.typ = some "refresh")) :=
  ⟨c9_refresh_rotation.1 dbT (some "alice") 0 10,
   c9_refresh_rotation.2.1 dbT
     (Token.jwt { sub := some "alice", exp := 100, typ := Option.none } SECRET_KEY) 10
     { sub := some "alice", exp := 100, typ := Option.none } (by simp [jwtDecode])
     (by simp),
   c9_refresh_rotation.2.2 dbT "alice" uA 0 10 rfl
     (by unfold refreshExpireSeconds; omega)⟩

/-- C10: registering a username that already exists fails with HTTP 400
"Username already registered" and returns the store unchanged: no user row
is added and no stored hash is modified. -/
theorem c10_duplicate_register_rejected (db : DB) (username password : String)
    (h : (get_user_by_username db username).isSome = true) :
    registerEndpoint db username password =
      (db, .error { status := 400, detail := "Username already registered" }) := by
  rcases hx : get_user_by_username db username with _ | u
  · rw [hx] at h; simp at h
  · simp [registerEndpoint, hx]

/-- C10 witness: registering "alice" again on the concrete store `dbT`
yields the 400 response and the unchanged store. -/
theorem c10_witness :
    registerEndpoint dbT "alice" "pw" =
      (dbT, .error { status := 400, detail := "Username already registered" }) :=
  c10_duplicate_register_rejected dbT "alice" "pw" rfl
